import Mathlib

/-
Verification of the meeting-room booking application (src/app.py).

The embedding below models the decision logic of the source file:
the booking data model (one row of the "Agendamentos" sheet), the
conflict checker check_conflict, the submission form handler (the
body of the `if submit_button:` block), the administrator approve
and reject button handlers, and the send_email wrapper.

Encoding conventions, shared by every definition:
- times of day are modelled as seconds since midnight (a Nat); the
  source stores them as HH:MM:SS strings produced by strftime and
  parses them back with strptime, which round-trips, and compares
  datetime.time values, whose order agrees with seconds-since-midnight;
- calendar dates are modelled as day numbers (a Nat); the source
  stores YYYY-MM-DD strings and compares them for equality only;
- the status field keeps the literal Portuguese strings of the source:
  Pendente (= Pending), Aprovado (= Approved), Rejeitado (= Rejected);
- the Google-Sheets worksheet is modelled as a list of records, in
  sheet order; sheet.append_row appends at the end; sheet.find followed
  by sheet.update_cell(cell.row, cell.col + 9, s) updates the status
  field of the first record whose ID matches;
- every external effect (row append, status-cell update, e-mail send)
  is recorded in an event trace so that ordering claims can be stated;
- fallible external calls are modelled by explicit outcome flags:
  writeOk for the spreadsheet write, and one delivery flag per
  SMTP transaction inside send_email.
-/

/-- One row of the Agendamentos sheet, i.e. one booking record, with the
columns appended by the submit handler: ID, Nome, Email, Data, Inicio,
Termino, Pauta, Participantes, Descricao, Status, Criado Em, Equipamentos. -/
structure BookingRecord where
  id : String
  nome : String
  email : String
  data : Nat
  inicio : Nat
  termino : Nat
  pauta : String
  participantes : String
  descricao : String
  status : String
  criadoEm : String
  equipamentos : String
deriving DecidableEq, Repr

/-- The function check_conflict of src/app.py (lines 72-84): keep the rows
whose Status is Aprovado and whose Data equals the candidate date, and
report a conflict as soon as one of them satisfies
start_time < existing_end and end_time > existing_start. -/
def check_conflict (df : List BookingRecord) (date : Nat)
    (start_time end_time : Nat) : Bool :=
  (df.filter (fun r => r.status == "Aprovado" && r.data == date)).any
    (fun r => decide (start_time < r.termino) && decide (end_time > r.inicio))

/-- An observable external effect of a handler, in program order:
a sheet.append_row call, a sheet.update_cell call writing a new status,
or a send_email call together with its boolean outcome. -/
inductive Event where
  | write (r : BookingRecord)
  | updateCell (id : String) (newStatus : String)
  | email (toAddr : String) (delivered : Bool)
deriving DecidableEq, Repr

/-- Outcome of the submit handler, one constructor per branch of the
if-chain at src/app.py lines 155-185: the missing-fields warning, the
inverted-window error, the conflict error, an exception out of
sheet.append_row, or the success branch. -/
inductive SubmitResult where
  | missingFields
  | invalidWindow
  | conflictErr
  | storageErr
  | created
deriving DecidableEq, Repr

/-- The booking form of the Solicitar Reserva tab. The date and the two
time widgets always hold a value (a Python date or time object is truthy),
so the required-field check of the source reduces to the three text
inputs nome, email and pauta; participantes, descricao and equipamentos
are optional. equipamentos is the already-joined multiselect string. -/
structure SubmitForm where
  nome : String
  email : String
  pauta : String
  participantes : String
  descricao : String
  equipamentos : String
  data : Nat
  inicio : Nat
  termino : Nat
deriving DecidableEq, Repr

/-- The new_booking_data dict built in the success branch of the submit
handler: a fresh uuid4 ID, the form fields, Status Pendente, and
Criado Em = the current timestamp. -/
def mkRecord (f : SubmitForm) (freshId now : String) : BookingRecord :=
  { id := freshId
    nome := f.nome
    email := f.email
    data := f.data
    inicio := f.inicio
    termino := f.termino
    pauta := f.pauta
    participantes := f.participantes
    descricao := f.descricao
    status := "Pendente"
    criadoEm := now
    equipamentos := f.equipamentos }

/-- The submit handler (src/app.py lines 155-185). In source order: warn
if a required field is empty; error if inicio >= termino; error if
check_conflict reports an overlap; otherwise append the new row and then
send two e-mails, first to the administrator address, then to the
requester. writeOk models whether sheet.append_row succeeds (an exception
there aborts the script before any e-mail); adminDel and userDel are the
boolean results of the two send_email calls, which never raise. -/
def submit (db : List BookingRecord) (f : SubmitForm)
    (freshId now adminEmail : String) (writeOk adminDel userDel : Bool) :
    SubmitResult × List BookingRecord × List Event :=
  if f.nome = "" ∨ f.email = "" ∨ f.pauta = "" then
    (.missingFields, db, [])
  else if f.inicio ≥ f.termino then
    (.invalidWindow, db, [])
  else if check_conflict db f.data f.inicio f.termino then
    (.conflictErr, db, [])
  else if writeOk then
    (.created, db ++ [mkRecord f freshId now],
      [.write (mkRecord f freshId now),
       .email adminEmail adminDel,
       .email f.email userDel])
  else
    (.storageErr, db, [])

/-- Outcome of an approve or reject button handler: the success path, the
could-not-find-the-ID error branch, or the caught exception branch of the
surrounding try block. -/
inductive AdminResult where
  | updated
  | notFoundErr
  | storageErr
deriving DecidableEq, Repr

/-- Effect of sheet.find(id) followed by sheet.update_cell on the status
column: replace the status of the first record whose ID matches, leaving
everything else unchanged. -/
def setStatus : List BookingRecord → String → String → List BookingRecord
  | [], _, _ => []
  | r :: rest, i, s =>
      if r.id = i then { r with status := s } :: rest
      else r :: setStatus rest i s

/-- The body of the approve button handler (src/app.py lines 238-251):
look the row ID up in the sheet; if absent, show the not-found error and
stop; if present, write Aprovado into the status cell and then send the
approval e-mail to the requester. writeOk models whether the
sheet.update_cell call succeeds; an exception there is caught by the
handler and surfaces as an error with no e-mail sent. -/
def approveClick (db : List BookingRecord) (row : BookingRecord)
    (writeOk delivered : Bool) :
    AdminResult × List BookingRecord × List Event :=
  match db.find? (fun r => r.id == row.id) with
  | none => (.notFoundErr, db, [])
  | some _ =>
      if writeOk then
        (.updated, setStatus db row.id "Aprovado",
          [.updateCell row.id "Aprovado", .email row.email delivered])
      else
        (.storageErr, db, [])

/-- The body of the reject button handler (src/app.py lines 255-268),
identical to the approve handler except that it writes Rejeitado and
sends the rejection e-mail. -/
def rejectClick (db : List BookingRecord) (row : BookingRecord)
    (writeOk delivered : Bool) :
    AdminResult × List BookingRecord × List Event :=
  match db.find? (fun r => r.id == row.id) with
  | none => (.notFoundErr, db, [])
  | some _ =>
      if writeOk then
        (.updated, setStatus db row.id "Rejeitado",
          [.updateCell row.id "Rejeitado", .email row.email delivered])
      else
        (.storageErr, db, [])

/-- The pending_df filter of the administrator panel (src/app.py line 219):
only rows whose Status is Pendente are listed, and only they get approve
and reject buttons. -/
def pendingRows (db : List BookingRecord) : List BookingRecord :=
  db.filter (fun r => r.status == "Pendente")

/-- The approve action of the administrator panel for a given record id.
snapshot is the DataFrame df_data fetched at the top of the script run;
db is the live sheet at the moment the handler body executes. The button
with key approve_id exists only when some row of the pending snapshot
carries that id; the handler then runs against the live sheet. Returns
none when no such button is rendered. -/
def adminApprove (snapshot db : List BookingRecord) (i : String)
    (writeOk delivered : Bool) :
    Option (AdminResult × List BookingRecord × List Event) :=
  ((pendingRows snapshot).find? (fun r => r.id == i)).map
    (fun row => approveClick db row writeOk delivered)

/-- The reject action of the administrator panel for a given record id,
mirroring adminApprove. -/
def adminReject (snapshot db : List BookingRecord) (i : String)
    (writeOk delivered : Bool) :
    Option (AdminResult × List BookingRecord × List Event) :=
  ((pendingRows snapshot).find? (fun r => r.id == i)).map
    (fun row => rejectClick db row writeOk delivered)

/-- Outcome flags for the steps of send_email that can raise: building the
MIME message, opening the SMTP connection, starttls, login, and sendmail. -/
structure SmtpEnv where
  composeOk : Bool
  connectOk : Bool
  starttlsOk : Bool
  loginOk : Bool
  sendOk : Bool
deriving DecidableEq, Repr

/-- The body of the try block of send_email (src/app.py lines 56-67): the
first failing step raises, skipping everything after it; if no step
raises, the function reaches return True. -/
def send_email_attempt (env : SmtpEnv) : Except String Unit :=
  if env.composeOk = false then .error "compose"
  else if env.connectOk = false then .error "connect"
  else if env.starttlsOk = false then .error "starttls"
  else if env.loginOk = false then .error "login"
  else if env.sendOk = false then .error "sendmail"
  else .ok ()

/-- The function send_email of src/app.py (lines 54-70): the whole body is
wrapped in try-except Exception, so every raise is turned into the
except branch, which reports the error and returns False; the return
type is Bool in every case, never a propagated exception. -/
def send_email (env : SmtpEnv) : Bool :=
  match send_email_attempt env with
  | .ok _ => true
  | .error _ => false

/-- The data-model invariant of the spec: no two distinct records that are
both Aprovado on the same date have overlapping windows, with the
half-open overlap test of check_conflict. -/
def ApprovedNoOverlap (db : List BookingRecord) : Prop :=
  ∀ a ∈ db, ∀ b ∈ db,
    ¬(a ≠ b ∧ a.status = "Aprovado" ∧ b.status = "Aprovado" ∧
      a.data = b.data ∧ a.inicio < b.termino ∧ b.inicio < a.termino)

instance (db : List BookingRecord) : Decidable (ApprovedNoOverlap db) := by
  unfold ApprovedNoOverlap
  infer_instance

/-- An e-mail event, as opposed to a persistence write. -/
def isEmail : Event → Bool
  | .email _ _ => true
  | _ => false

/-- Checks that every e-mail event of a trace comes after every
persistence write: once the first e-mail is sent, only e-mails follow. -/
def writesThenEmails : List Event → Bool
  | [] => true
  | .email _ _ :: rest => rest.all isEmail
  | _ :: rest => writesThenEmails rest

/-- Example submission: a request by Ana for day 100, window 9:00-10:00
(32400-36000 seconds). -/
def exFormA : SubmitForm :=
  { nome := "Ana"
    email := "ana@example.com"
    pauta := "Planejamento"
    participantes := ""
    descricao := ""
    equipamentos := ""
    data := 100
    inicio := 32400
    termino := 36000 }

/-- Example submission: a request by Bia for day 100, window 9:30-10:30
(34200-37800 seconds), overlapping exFormA half-openly. -/
def exFormB : SubmitForm :=
  { nome := "Bia"
    email := "bia@example.com"
    pauta := "Orcamento"
    participantes := ""
    descricao := ""
    equipamentos := ""
    data := 100
    inicio := 34200
    termino := 37800 }

/-- Example submission with an empty required field (nome). -/
def exFormEmpty : SubmitForm := { exFormA with nome := "" }

/-- Example submission with an inverted window (start 10:00, end 9:00). -/
def exFormInverted : SubmitForm := { exFormA with inicio := 36000, termino := 32400 }

/-- Example submission dated day 0, in the past relative to a submission
happening on day 1. -/
def exFormPast : SubmitForm := { exFormA with data := 0 }

/-- The record created for exFormA. -/
def recA : BookingRecord := mkRecord exFormA "A" "t1"

/-- The record created for exFormB. -/
def recB : BookingRecord := mkRecord exFormB "B" "t2"

/-- recA after approval. -/
def recA_ap : BookingRecord := { recA with status := "Aprovado" }

/-- recB after approval. -/
def recB_ap : BookingRecord := { recB with status := "Aprovado" }

/-- recB after rejection. -/
def recB_rj : BookingRecord := { recB with status := "Rejeitado" }

/-- An already-approved booking on day 100 with window 10:00-11:00
(36000-39600 seconds). -/
def recC_ap : BookingRecord :=
  { id := "C"
    nome := "Caio"
    email := "caio@example.com"
    data := 100
    inicio := 36000
    termino := 39600
    pauta := "Diretoria"
    participantes := ""
    descricao := ""
    status := "Aprovado"
    criadoEm := "t0"
    equipamentos := "" }

/-- C4: check_conflict returns true exactly when some record of the input
collection has status Aprovado, the same date as the candidate, and a
window overlapping the candidate half-openly; records that are Pendente
or Rejeitado, and Aprovado records on another date, never produce a
conflict — the checker filters by status and date itself, whatever the
caller pre-filtered. -/
theorem check_conflict_iff_exists_approved_same_date
    (df : List BookingRecord) (d s e : Nat) :
    check_conflict df d s e = true ↔
      ∃ r, r ∈ df ∧ r.status = "Aprovado" ∧ r.data = d ∧
        s < r.termino ∧ e > r.inicio := by
  simp only [check_conflict, List.any_eq_true, List.mem_filter,
    Bool.and_eq_true, beq_iff_eq, decide_eq_true_eq]
  constructor
  · rintro ⟨r, ⟨hr, hst, hd⟩, h1, h2⟩
    exact ⟨r, hr, hst, hd, h1, h2⟩
  · rintro ⟨r, hr, hst, hd, h1, h2⟩
    exact ⟨r, ⟨hr, hst, hd⟩, h1, h2⟩

/-- C4 witness: a 9:00-10:30 candidate against a collection holding one
approved 10:00-11:00 booking on the same date conflicts. -/
theorem check_conflict_iff_witness :
    check_conflict [recC_ap] 100 32400 37800 = true :=
  (check_conflict_iff_exists_approved_same_date [recC_ap] 100 32400 37800).mpr
    ⟨recC_ap, by decide, rfl, rfl, by decide, by decide⟩

/-- C3: against a single approved same-date booking, check_conflict reports
a conflict exactly when candidate.start < existing.end and
candidate.end > existing.start; in particular the adjacent windows
9:00-10:00 and 10:00-11:00 never conflict in either direction, while
9:00-10:30 and 10:00-11:00 always conflict. -/
theorem conflict_iff_halfopen_overlap :
    (∀ (r : BookingRecord) (d s e : Nat), r.status = "Aprovado" → r.data = d →
      (check_conflict [r] d s e = true ↔ (s < r.termino ∧ e > r.inicio)))
  ∧ check_conflict [recC_ap] 100 32400 36000 = false
  ∧ check_conflict [recA_ap] 100 36000 39600 = false
  ∧ check_conflict [recC_ap] 100 32400 37800 = true := by
  refine ⟨?_, by decide, by decide, by decide⟩
  intro r d s e hst hd
  simp [check_conflict, hst, hd]

/-- C3 witness: the general overlap test applied to the concrete
conflicting pair, hypotheses discharged at recC_ap. -/
theorem conflict_iff_halfopen_overlap_witness :
    check_conflict [recC_ap] 100 34200 37800 = true :=
  (conflict_iff_halfopen_overlap.1 recC_ap 100 34200 37800 rfl rfl).mpr
    (by decide)

/-- Every record of setStatus db i s is either an untouched record of db or
carries the written status s. -/
theorem setStatus_mem (db : List BookingRecord) (i s : String)
    (x : BookingRecord) (hx : x ∈ setStatus db i s) : x ∈ db ∨ x.status = s := by
  induction db with
  | nil => simp [setStatus] at hx
  | cons r rest ih =>
    simp only [setStatus] at hx
    by_cases hid : r.id = i
    · rw [if_pos hid] at hx
      rcases List.mem_cons.mp hx with h1 | h1
      · right; rw [h1]
      · left; exact List.mem_cons_of_mem _ h1
    · rw [if_neg hid] at hx
      rcases List.mem_cons.mp hx with h1 | h1
      · left; rw [h1]; exact List.mem_cons_self r rest
      · rcases ih h1 with h2 | h2
        · left; exact List.mem_cons_of_mem _ h2
        · right; exact h2

/-- Appending a Pendente record cannot break the approved-no-overlap
invariant. -/
theorem approvedNoOverlap_append_pendente (db : List BookingRecord)
    (r : BookingRecord) (h : ApprovedNoOverlap db)
    (hr : r.status = "Pendente") : ApprovedNoOverlap (db ++ [r]) := by
  intro a ha b hb hcon
  obtain ⟨hne, ha2, hb2, hd, h1, h2⟩ := hcon
  rcases List.mem_append.mp ha with ha1 | ha1
  · rcases List.mem_append.mp hb with hb1 | hb1
    · exact h a ha1 b hb1 ⟨hne, ha2, hb2, hd, h1, h2⟩
    · have hbr : b = r := List.mem_singleton.mp hb1
      rw [hbr, hr] at hb2
      exact absurd hb2 (by decide)
  · have har : a = r := List.mem_singleton.mp ha1
    rw [har, hr] at ha2
    exact absurd ha2 (by decide)

/-- Writing Rejeitado into some record cannot break the approved-no-overlap
invariant. -/
theorem approvedNoOverlap_setStatus_rejeitado (db : List BookingRecord)
    (i : String) (h : ApprovedNoOverlap db) :
    ApprovedNoOverlap (setStatus db i "Rejeitado") := by
  intro a ha b hb hcon
  obtain ⟨hne, ha2, hb2, hd, h1, h2⟩ := hcon
  rcases setStatus_mem db i _ a ha with ha1 | ha1
  · rcases setStatus_mem db i _ b hb with hb1 | hb1
    · exact h a ha1 b hb1 ⟨hne, ha2, hb2, hd, h1, h2⟩
    · rw [hb1] at hb2
      exact absurd hb2 (by decide)
  · rw [ha1] at ha2
    exact absurd ha2 (by decide)

/-- The submit handler either leaves the sheet unchanged or appends exactly
the one new Pendente record. -/
theorem submit_db_shape (db : List BookingRecord) (f : SubmitForm)
    (freshId now adminEmail : String) (writeOk adminDel userDel : Bool) :
    (submit db f freshId now adminEmail writeOk adminDel userDel).2.1 = db ∨
    (submit db f freshId now adminEmail writeOk adminDel userDel).2.1 =
      db ++ [mkRecord f freshId now] := by
  unfold submit
  split_ifs <;> simp

/-- The reject handler either leaves the sheet unchanged or writes
Rejeitado into the row found for the clicked ID. -/
theorem rejectClick_db_shape (db : List BookingRecord) (row : BookingRecord)
    (wOk del : Bool) :
    (rejectClick db row wOk del).2.1 = db ∨
    (rejectClick db row wOk del).2.1 = setStatus db row.id "Rejeitado" := by
  cases hfind : db.find? (fun r => r.id == row.id) with
  | none => left; simp [rejectClick, hfind]
  | some r0 =>
    cases wOk with
    | false => left; simp [rejectClick, hfind]
    | true => right; simp [rejectClick, hfind]

/-- C1 (amended): the approved-no-overlap invariant is preserved by the
submit handler and by the reject action; the approve handler, which does
no conflict re-check, is the one operation that can break it. -/
theorem approved_no_overlap_preserved_by_submit_and_reject
    (db snapshot : List BookingRecord) (f : SubmitForm)
    (freshId now adminEmail i : String)
    (writeOk adminDel userDel wOk del : Bool)
    (h : ApprovedNoOverlap db) :
    ApprovedNoOverlap
      (submit db f freshId now adminEmail writeOk adminDel userDel).2.1
  ∧ ∀ res db2 tr, adminReject snapshot db i wOk del = some (res, db2, tr) →
      ApprovedNoOverlap db2 := by
  constructor
  · rcases submit_db_shape db f freshId now adminEmail writeOk adminDel userDel
      with hs | hs
    · rw [hs]; exact h
    · rw [hs]; exact approvedNoOverlap_append_pendente db _ h rfl
  · intro res db2 tr hout
    simp only [adminReject, Option.map_eq_some'] at hout
    obtain ⟨row, hfind, heq⟩ := hout
    have hdb2 : db2 = (rejectClick db row wOk del).2.1 := by rw [heq]
    rw [hdb2]
    rcases rejectClick_db_shape db row wOk del with hs | hs
    · rw [hs]; exact h
    · rw [hs]; exact approvedNoOverlap_setStatus_rejeitado db row.id h

/-- C1 witness: preservation applied to a concrete submission into a
collection holding one approved booking. -/
theorem approved_no_overlap_preservation_witness :
    ApprovedNoOverlap
      (submit [recC_ap] exFormA "A" "t1" "adm@example.com" true true true).2.1 :=
  (approved_no_overlap_preserved_by_submit_and_reject [recC_ap] [recC_ap]
    exFormA "A" "t1" "adm@example.com" "A" true true true true true
    (by decide)).1

/-- C1 counterexample: the invariant is not preserved by every workflow
operation. Starting from the empty sheet, submit two overlapping requests
for day 100 (both accepted as Pendente, since only Aprovado rows block a
submission), approve the first, then approve the second: the approve
handler does no conflict re-check, so the final sheet holds two approved
overlapping bookings on the same date. -/
theorem approved_overlap_reachable_via_approve :
    (submit [] exFormA "A" "t1" "adm@example.com" true true true).2.1 = [recA]
  ∧ (submit [recA] exFormB "B" "t2" "adm@example.com" true true true).2.1 =
      [recA, recB]
  ∧ ApprovedNoOverlap [recA, recB]
  ∧ (adminApprove [recA, recB] [recA, recB] "A" true true).map
      (fun x => x.2.1) = some [recA_ap, recB]
  ∧ ApprovedNoOverlap [recA_ap, recB]
  ∧ (adminApprove [recA_ap, recB] [recA_ap, recB] "B" true true).map
      (fun x => x.2.1) = some [recA_ap, recB_ap]
  ∧ ¬ ApprovedNoOverlap [recA_ap, recB_ap] := by decide

/-- C2 (amended): the approve handler performs no conflict re-check. For
any row whose ID is present in the sheet, clicking approve writes
Aprovado into the found row and sends the approval e-mail, whatever the
currently approved bookings for that date are. -/
theorem approve_updates_without_conflict_recheck
    (db : List BookingRecord) (row : BookingRecord) (del : Bool)
    (h : ∃ r ∈ db, r.id = row.id) :
    approveClick db row true del =
      (.updated, setStatus db row.id "Aprovado",
        [.updateCell row.id "Aprovado", .email row.email del]) := by
  cases hfind : db.find? (fun r => r.id == row.id) with
  | none =>
    rw [List.find?_eq_none] at hfind
    obtain ⟨r, hr, hid⟩ := h
    exact absurd (by simp [hid]) (hfind r hr)
  | some r0 => simp [approveClick, hfind]

/-- C2 witness: the unconditional update applied to a row whose window
conflicts with an approved booking at the moment of approval. -/
theorem approve_updates_without_conflict_recheck_witness :
    approveClick [recA_ap, recB] recB true true =
      (.updated, setStatus [recA_ap, recB] recB.id "Aprovado",
        [.updateCell recB.id "Aprovado", .email recB.email true]) :=
  approve_updates_without_conflict_recheck [recA_ap, recB] recB true
    ⟨recB, by decide, rfl⟩

/-- C2 counterexample: a pending 9:30-10:30 request whose window now
conflicts with the approved 9:00-10:00 booking on the same date is
approved anyway: the panel action returns the success outcome, writes the
status and notifies, instead of failing with a conflict error and leaving
the record Pendente. -/
theorem approve_ignores_conflict_counterexample :
    check_conflict [recA_ap, recB] recB.data recB.inicio recB.termino = true
  ∧ recB.status = "Pendente"
  ∧ adminApprove [recA_ap, recB] [recA_ap, recB] "B" true true =
      some (.updated, [recA_ap, recB_ap],
        [.updateCell "B" "Aprovado", .email recB.email true]) := by decide

/-- C5 (amended): the submit handler returns the missing-fields warning
when a required text field is empty, and otherwise the inverted-window
error when inicio >= termino; in both cases the sheet is unchanged, no
event is emitted, and the outcome does not depend on the collection, so
the conflict checker and the storage write are never reached. The handler
itself performs no past-date check: past dates are excluded only by the
date widget, whose min_value is evaluated at form-render time. -/
theorem submit_rejects_empty_and_inverted
    (db : List BookingRecord) (f : SubmitForm)
    (freshId now adminEmail : String) (writeOk adminDel userDel : Bool) :
    (f.nome = "" ∨ f.email = "" ∨ f.pauta = "" →
      submit db f freshId now adminEmail writeOk adminDel userDel =
        (.missingFields, db, []))
  ∧ (¬(f.nome = "" ∨ f.email = "" ∨ f.pauta = "") → f.inicio ≥ f.termino →
      submit db f freshId now adminEmail writeOk adminDel userDel =
        (.invalidWindow, db, [])) := by
  constructor
  · intro h1
    unfold submit
    rw [if_pos h1]
  · intro h1 h2
    unfold submit
    rw [if_neg h1, if_pos h2]

/-- C5 witness: the two validation rejections at concrete forms, against a
collection whose only booking conflicts with the requested window, showing
that neither validation branch consults it. -/
theorem submit_rejects_empty_and_inverted_witness :
    submit [recC_ap] exFormEmpty "i" "t" "adm@example.com" true true true =
      (.missingFields, [recC_ap], [])
  ∧ submit [recC_ap] exFormInverted "i" "t" "adm@example.com" true true true =
      (.invalidWindow, [recC_ap], []) :=
  ⟨(submit_rejects_empty_and_inverted [recC_ap] exFormEmpty "i" "t"
      "adm@example.com" true true true).1 (by decide),
   (submit_rejects_empty_and_inverted [recC_ap] exFormInverted "i" "t"
      "adm@example.com" true true true).2 (by decide) (by decide)⟩

/-- C5 counterexample: a complete, conflict-free submission dated day 0,
made when the current day is 1 (so the date is in the past at the moment
of submission), is not rejected with a validation error: the handler
creates the record and appends it. The widget bound min_value is computed
when the form is rendered, not when the submission is processed. -/
theorem submit_accepts_past_date_counterexample :
    exFormPast.data < 1
  ∧ (submit [] exFormPast "P" "t9" "adm@example.com" true true true).1 =
      SubmitResult.created
  ∧ (submit [] exFormPast "P" "t9" "adm@example.com" true true true).2.1 =
      [mkRecord exFormPast "P" "t9"] := by decide

/-- C6: a valid, conflict-free submission appends exactly one new record
with status Pendente, the fresh ID and the creation timestamp, and then
triggers the two notifications, first to the administrator address and
then to the requester; both e-mail events are emitted and the appended
record is the same whatever either delivery outcome is, so one failed
delivery neither rolls back the record nor blocks the other e-mail. -/
theorem submit_success_effects
    (db : List BookingRecord) (f : SubmitForm)
    (freshId now adminEmail : String) (adminDel userDel : Bool)
    (h1 : ¬(f.nome = "" ∨ f.email = "" ∨ f.pauta = ""))
    (h2 : f.inicio < f.termino)
    (h3 : check_conflict db f.data f.inicio f.termino = false)
    (h4 : ∀ r ∈ db, r.id ≠ freshId) :
    submit db f freshId now adminEmail true adminDel userDel =
      (.created, db ++ [mkRecord f freshId now],
        [.write (mkRecord f freshId now),
         .email adminEmail adminDel,
         .email f.email userDel])
  ∧ (mkRecord f freshId now).status = "Pendente"
  ∧ (mkRecord f freshId now).id = freshId
  ∧ (mkRecord f freshId now).criadoEm = now
  ∧ (∀ r ∈ db, r.id ≠ (mkRecord f freshId now).id) := by
  refine ⟨?_, rfl, rfl, rfl, h4⟩
  unfold submit
  rw [if_neg h1, if_neg (by omega : ¬ f.inicio ≥ f.termino),
    if_neg (by simp [h3]), if_pos rfl]

/-- C6 witness: the success effects at a concrete submission whose
administrator e-mail fails to deliver while the requester e-mail
succeeds: the record is still appended and both sends are attempted. -/
theorem submit_success_effects_witness :
    submit [] exFormA "A" "t1" "adm@example.com" true false true =
      (.created, [mkRecord exFormA "A" "t1"],
        [.write (mkRecord exFormA "A" "t1"),
         .email "adm@example.com" false,
         .email exFormA.email true]) := by
  have h := (submit_success_effects [] exFormA "A" "t1" "adm@example.com"
    false true (by decide) (by decide) (by decide) (by simp)).1
  simpa using h

/-- C7 (amended): the administrator panel renders approve and reject
buttons only for rows that are Pendente in the fetched snapshot, so when
the snapshot is current, neither action exists for a record whose status
is Aprovado or Rejeitado: nothing is written and nothing is sent. No
InvalidTransition error is produced anywhere, and the handler itself
checks no status, so with a stale snapshot it overwrites terminal
statuses (see the counterexample). -/
theorem panel_hides_non_pending
    (db : List BookingRecord) (i : String) (wOk del : Bool)
    (h : ∀ r ∈ db, ¬(r.id = i ∧ r.status = "Pendente")) :
    adminApprove db db i wOk del = none ∧ adminReject db db i wOk del = none := by
  have hfind : (pendingRows db).find? (fun r => r.id == i) = none := by
    rw [List.find?_eq_none]
    intro r hr
    obtain ⟨hr1, hr2⟩ := List.mem_filter.mp hr
    simp only [beq_iff_eq] at hr2 ⊢
    intro hid
    exact h r hr1 ⟨hid, hr2⟩
  constructor
  · simp [adminApprove, hfind]
  · simp [adminReject, hfind]

/-- C7 witness: with a current snapshot, no approve or reject action
exists for an approved record. -/
theorem panel_hides_non_pending_witness :
    adminApprove [recA_ap] [recA_ap] "A" true true = none ∧
    adminReject [recA_ap] [recA_ap] "A" true true = none :=
  panel_hides_non_pending [recA_ap] "A" true true (by decide)

/-- C7 counterexample: the handler performs no status check of its own, so
a transition out of a terminal state is possible. With a snapshot fetched
while the record was still Pendente and a live sheet where it has since
been approved, clicking reject succeeds and overwrites Aprovado with
Rejeitado, instead of failing with an InvalidTransition error and leaving
the status unchanged. -/
theorem stale_snapshot_reject_overwrites_approved :
    recB_ap.status = "Aprovado"
  ∧ adminReject [recB] [recB_ap] "B" true true =
      some (.updated, [recB_rj],
        [.updateCell "B" "Rejeitado", .email recB.email true]) := by decide

/-- C8: clicking approve or reject for a row whose ID is absent from the
sheet hits the not-found error branch: the handler reports the error,
writes nothing and sends no e-mail. -/
theorem handler_not_found_no_effects
    (db : List BookingRecord) (row : BookingRecord) (wOk del : Bool)
    (h : ∀ r ∈ db, r.id ≠ row.id) :
    approveClick db row wOk del = (.notFoundErr, db, [])
  ∧ rejectClick db row wOk del = (.notFoundErr, db, []) := by
  have hfind : db.find? (fun r => r.id == row.id) = none := by
    rw [List.find?_eq_none]
    intro r hr
    simp [h r hr]
  constructor
  · simp [approveClick, hfind]
  · simp [rejectClick, hfind]

/-- C8 witness: both handlers at a concrete sheet that does not contain
the clicked ID. -/
theorem handler_not_found_no_effects_witness :
    approveClick [recA_ap] recB true true = (.notFoundErr, [recA_ap], [])
  ∧ rejectClick [recA_ap] recB true true = (.notFoundErr, [recA_ap], []) :=
  handler_not_found_no_effects [recA_ap] recB true true (by decide)

/-- The submit handler reaches exactly one of its five branches; in the
success branch the storage write was required to succeed. -/
theorem submit_shape (db : List BookingRecord) (f : SubmitForm)
    (freshId now adminEmail : String) (writeOk adminDel userDel : Bool) :
    submit db f freshId now adminEmail writeOk adminDel userDel =
        (.missingFields, db, [])
  ∨ submit db f freshId now adminEmail writeOk adminDel userDel =
        (.invalidWindow, db, [])
  ∨ submit db f freshId now adminEmail writeOk adminDel userDel =
        (.conflictErr, db, [])
  ∨ submit db f freshId now adminEmail writeOk adminDel userDel =
        (.storageErr, db, [])
  ∨ (writeOk = true ∧
      submit db f freshId now adminEmail writeOk adminDel userDel =
        (.created, db ++ [mkRecord f freshId now],
          [.write (mkRecord f freshId now),
           .email adminEmail adminDel,
           .email f.email userDel])) := by
  unfold submit
  split_ifs with h1 h2 h3 h4
  · exact Or.inl rfl
  · exact Or.inr (Or.inl rfl)
  · exact Or.inr (Or.inr (Or.inl rfl))
  · exact Or.inr (Or.inr (Or.inr (Or.inr ⟨h4, rfl⟩)))
  · exact Or.inr (Or.inr (Or.inr (Or.inl rfl)))

/-- The approve handler reaches exactly one of its three branches; the
success branch requires the status write to succeed. -/
theorem approveClick_shape (db : List BookingRecord) (row : BookingRecord)
    (wOk del : Bool) :
    approveClick db row wOk del = (.notFoundErr, db, [])
  ∨ approveClick db row wOk del = (.storageErr, db, [])
  ∨ (wOk = true ∧ approveClick db row wOk del =
      (.updated, setStatus db row.id "Aprovado",
        [.updateCell row.id "Aprovado", .email row.email del])) := by
  cases hfind : db.find? (fun r => r.id == row.id) with
  | none => exact Or.inl (by simp [approveClick, hfind])
  | some r0 =>
    cases wOk with
    | false => exact Or.inr (Or.inl (by simp [approveClick, hfind]))
    | true => exact Or.inr (Or.inr ⟨rfl, by simp [approveClick, hfind]⟩)

/-- The reject handler reaches exactly one of its three branches; the
success branch requires the status write to succeed. -/
theorem rejectClick_shape (db : List BookingRecord) (row : BookingRecord)
    (wOk del : Bool) :
    rejectClick db row wOk del = (.notFoundErr, db, [])
  ∨ rejectClick db row wOk del = (.storageErr, db, [])
  ∨ (wOk = true ∧ rejectClick db row wOk del =
      (.updated, setStatus db row.id "Rejeitado",
        [.updateCell row.id "Rejeitado", .email row.email del])) := by
  cases hfind : db.find? (fun r => r.id == row.id) with
  | none => exact Or.inl (by simp [rejectClick, hfind])
  | some r0 =>
    cases wOk with
    | false => exact Or.inr (Or.inl (by simp [rejectClick, hfind]))
    | true => exact Or.inr (Or.inr ⟨rfl, by simp [rejectClick, hfind]⟩)

/-- C9: in every run of the three handlers, every e-mail event comes after
every persistence write in the trace; a submit run that does not create a
record leaves the sheet unchanged and emits no event at all (validation
and conflict rejection happen before any write); and when the storage
write fails, no handler emits any event, so a storage failure never
triggers a notification. -/
theorem writes_precede_notifications
    (db : List BookingRecord) (f : SubmitForm)
    (freshId now adminEmail : String)
    (writeOk adminDel userDel del : Bool) (row : BookingRecord) :
    writesThenEmails
      (submit db f freshId now adminEmail writeOk adminDel userDel).2.2 = true
  ∧ writesThenEmails (approveClick db row writeOk del).2.2 = true
  ∧ writesThenEmails (rejectClick db row writeOk del).2.2 = true
  ∧ ((submit db f freshId now adminEmail writeOk adminDel userDel).1 ≠
        SubmitResult.created →
      (submit db f freshId now adminEmail writeOk adminDel userDel).2 =
        (db, []))
  ∧ (writeOk = false →
      (submit db f freshId now adminEmail writeOk adminDel userDel).2.2 = []
      ∧ (approveClick db row writeOk del).2.2 = []
      ∧ (rejectClick db row writeOk del).2.2 = []) := by
  refine ⟨?_, ?_, ?_, ?_, ?_⟩
  · rcases submit_shape db f freshId now adminEmail writeOk adminDel userDel
      with hs | hs | hs | hs | ⟨hw, hs⟩ <;>
      rw [hs] <;> simp [writesThenEmails, isEmail]
  · rcases approveClick_shape db row writeOk del
      with hs | hs | ⟨hw, hs⟩ <;>
      rw [hs] <;> simp [writesThenEmails, isEmail]
  · rcases rejectClick_shape db row writeOk del
      with hs | hs | ⟨hw, hs⟩ <;>
      rw [hs] <;> simp [writesThenEmails, isEmail]
  · intro hne
    rcases submit_shape db f freshId now adminEmail writeOk adminDel userDel
      with hs | hs | hs | hs | ⟨hw, hs⟩
    · rw [hs]
    · rw [hs]
    · rw [hs]
    · rw [hs]
    · exfalso
      apply hne
      rw [hs]
  · intro hw0
    refine ⟨?_, ?_, ?_⟩
    · rcases submit_shape db f freshId now adminEmail writeOk adminDel userDel
        with hs | hs | hs | hs | ⟨hw, hs⟩
      · rw [hs]
      · rw [hs]
      · rw [hs]
      · rw [hs]
      · rw [hw0] at hw
        exact absurd hw (by decide)
    · rcases approveClick_shape db row writeOk del with hs | hs | ⟨hw, hs⟩
      · rw [hs]
      · rw [hs]
      · rw [hw0] at hw
        exact absurd hw (by decide)
    · rcases rejectClick_shape db row writeOk del with hs | hs | ⟨hw, hs⟩
      · rw [hs]
      · rw [hs]
      · rw [hw0] at hw
        exact absurd hw (by decide)

/-- C9 witness: the ordering facts at a concrete successful submission and
a concrete failed storage write. -/
theorem writes_precede_notifications_witness :
    writesThenEmails
      (submit [] exFormA "A" "t1" "adm@example.com" true true true).2.2 = true
  ∧ (approveClick [recA_ap] recA_ap false true).2.2 = [] :=
  ⟨(writes_precede_notifications [] exFormA "A" "t1" "adm@example.com"
      true true true true recA_ap).1,
   ((writes_precede_notifications [recA_ap] exFormA "A" "t1" "adm@example.com"
      false true true true recA_ap).2.2.2.2 rfl).2.1⟩

/-- C10: send_email returns a boolean for every outcome of the fallible
steps of its body (building the MIME message, connecting, starttls, login,
sendmail): the try-except around the whole body turns every raise into the
except branch, which returns False, so no exception ever propagates into
the calling handler; and it returns True exactly when every step of the
delivery succeeded. -/
theorem send_email_total_and_reports_delivery (env : SmtpEnv) :
    send_email env =
      (env.composeOk && env.connectOk && env.starttlsOk &&
        env.loginOk && env.sendOk)
  ∧ (send_email env = true ↔ send_email_attempt env = .ok ()) := by
  obtain ⟨c, k, s, l, d⟩ := env
  constructor
  · cases c <;> cases k <;> cases s <;> cases l <;> cases d <;> decide
  · cases c <;> cases k <;> cases s <;> cases l <;> cases d <;>
      simp [send_email, send_email_attempt]

/-- C10 witness: a failed login produces the return value False, not a
propagated exception. -/
theorem send_email_total_witness :
    send_email ⟨true, true, true, false, true⟩ = false := by
  have h := (send_email_total_and_reports_delivery
    ⟨true, true, true, false, true⟩).1
  simpa using h
